import Mathlib

/-!
# Verification of the vino dataflow runtime core

A shallow embedding of the runtime's packet codec, RPC signature
conversions, wasm module loader, network builder, in-memory collection
provider and key-file lookup, with theorems settling the spec's claims
about them. Each definition is translated from the corresponding Rust
source; definitions for code of the repository that is not among the
staged source files are marked `Modelled from the spec:` in their doc
comments.
-/

namespace Vino

/-! ## Packet model (vino-component) and RPC output decoding (vino-rpc) -/

/-- Modelled from the spec: the payload variants of the external
vino-component crate's `v0::Payload` (spec section 3 "Packet" and the
variants the RPC decoder in src/crates/vino-rpc/src/lib.rs constructs):
a self-describing MessagePack value, recoverable Exception, hard Error,
the reserved Invalid catch-all, the bracket signals and the Close/Done
stream signals. -/
inductive Payload where
  | messagePack (bytes : List Nat)
  | exception (msg : String)
  | error (msg : String)
  | invalid
  | openBracket
  | closeBracket
  | close
  | done
  deriving DecidableEq

/-- vino-component's versioned `Packet` wrapper; only version 0 exists. -/
inductive Packet where
  | v0 (payload : Payload)
  deriving DecidableEq

/-- Modelled from the spec: the generated protobuf `OutputSignal` enum is
not among the source files; spec section 6 fixes the codes:
0 = Close, 1 = OpenBracket, 2 = CloseBracket. -/
inductive OutputSignal where
  | close
  | openBracket
  | closeBracket
  deriving DecidableEq

/-- Modelled from the spec: protobuf enum decoding of the signal code
(spec section 6 "Signal codes: 0=Close, 1=OpenBracket, 2=CloseBracket"). -/
def OutputSignal.from_i32 (n : Int) : Option OutputSignal :=
  if n = 0 then some OutputSignal.close
  else if n = 1 then some OutputSignal.openBracket
  else if n = 2 then some OutputSignal.closeBracket
  else none

/-- Modelled from the spec: the generated `OutputKind.data` oneof of the
wire protocol (spec section 6: Encoded bytes, Error string, Exception
string, Signal int32, Invalid bool, Test bytes). -/
inductive OutputKindData where
  | messagepack (v : List Nat)
  | error (v : String)
  | exception (v : String)
  | test (v : List Nat)
  | invalid (v : Bool)
  | signal (v : Int)
  deriving DecidableEq

/-- The wire `OutputKind` frame: a port name and an optional data oneof. -/
structure OutputKind where
  port : String
  data : Option OutputKindData
  deriving DecidableEq

/-- `Into<Packet> for rpc::OutputKind`
(src/crates/vino-rpc/src/lib.rs lines 258-279). -/
def OutputKind.intoPacket (self : OutputKind) : Packet :=
  match self.data with
  | some v =>
    match v with
    | OutputKindData.messagepack v => Packet.v0 (Payload.messagePack v)
    | OutputKindData.error v => Packet.v0 (Payload.error v)
    | OutputKindData.exception v => Packet.v0 (Payload.exception v)
    | OutputKindData.test _ => Packet.v0 Payload.invalid
    | OutputKindData.invalid _ => Packet.v0 Payload.invalid
    | OutputKindData.signal signal =>
      match OutputSignal.from_i32 signal with
      | some OutputSignal.close => Packet.v0 Payload.close
      | some OutputSignal.openBracket => Packet.v0 Payload.openBracket
      | some OutputSignal.closeBracket => Packet.v0 Payload.closeBracket
      | none => Packet.v0 (Payload.error "Sent an invalid signal")
  | none => Packet.v0 (Payload.error "Response received without output")

/-! ## The wapc `reverse` test component -/

/-- The generated input record of the `reverse` component: one string
port `input`. -/
structure ReverseInputs where
  input : String
  deriving DecidableEq

/-- A payload sent on an output port by a component job: a data value or
the Done end-of-stream marker. -/
inductive PortPayload where
  | data (value : String)
  | done
  deriving DecidableEq

/-- One packet a component job sends: the port it is sent on and its
payload. -/
structure SentPacket where
  port : String
  payload : PortPayload
  deriving DecidableEq

/-- Modelled from the spec: the generated `Outputs` sender of the wapc
component codegen is not among the source files; per spec scenario S1 a
`done(&value)` call on a port emits exactly one data packet carrying the
value followed by Done on that port. -/
def PortSender.done (port : String) (value : String) : List SentPacket :=
  [⟨port, PortPayload.data value⟩, ⟨port, PortPayload.done⟩]

/-- `job` of the reverse component
(src/crates/integration/test-wapc-component/src/components/reverse.rs):
`let reversed = input.input.chars().rev().collect();
 output.output.done(&reversed)`. -/
def reverseJob (input : ReverseInputs) : List SentPacket :=
  let reversed := String.mk input.input.data.reverse
  PortSender.done "output" reversed

/-! ## Signatures and wire conversions (vino-rpc) -/

/-- `PortSignature` (src/crates/vino-rpc/src/lib.rs lines 73-77). -/
structure PortSignature where
  name : String
  type_string : String
  deriving DecidableEq

/-- `ComponentSignature` (src/crates/vino-rpc/src/lib.rs lines 66-71). -/
structure ComponentSignature where
  name : String
  inputs : List PortSignature
  outputs : List PortSignature
  deriving DecidableEq

/-- `ProviderSignature` (src/crates/vino-rpc/src/lib.rs lines 92-96). -/
structure ProviderSignature where
  name : String
  components : List ComponentSignature
  deriving DecidableEq

/-- `SchematicSignature` (src/crates/vino-rpc/src/lib.rs lines 98-104). -/
structure SchematicSignature where
  name : String
  inputs : List PortSignature
  outputs : List PortSignature
  providers : List ProviderSignature
  deriving DecidableEq

/-- `HostedType` (src/crates/vino-rpc/src/lib.rs lines 106-110). -/
inductive HostedType where
  | component (sig : ComponentSignature)
  | schematic (sig : SchematicSignature)
  deriving DecidableEq

/-- Modelled from the spec: the generated protobuf `component::Port`
message (spec section 6's `Port`): a name and a type string. -/
structure RpcPort where
  name : String
  ty : String
  deriving DecidableEq

mutual
/-- Modelled from the spec: the generated protobuf `Component` message
(spec section 6: `Component { name, kind, inputs, outputs, providers }`),
with `kind` carried as a raw i32 as on the wire. -/
inductive RpcComponent where
  | mk (name : String) (kind : Int) (inputs : List RpcPort)
       (outputs : List RpcPort) (providers : List RpcProvider)

/-- Modelled from the spec: the generated protobuf `Provider` message
(`Provider { name, components }`). -/
inductive RpcProvider where
  | mk (name : String) (components : List RpcComponent)
end

def RpcComponent.name : RpcComponent → String
  | RpcComponent.mk n _ _ _ _ => n

def RpcComponent.kind : RpcComponent → Int
  | RpcComponent.mk _ k _ _ _ => k

def RpcComponent.inputs : RpcComponent → List RpcPort
  | RpcComponent.mk _ _ i _ _ => i

def RpcComponent.outputs : RpcComponent → List RpcPort
  | RpcComponent.mk _ _ _ o _ => o

def RpcComponent.providers : RpcComponent → List RpcProvider
  | RpcComponent.mk _ _ _ _ p => p

def RpcProvider.name : RpcProvider → String
  | RpcProvider.mk n _ => n

def RpcProvider.components : RpcProvider → List RpcComponent
  | RpcProvider.mk _ c => c

/-- Modelled from the spec: the generated `component::ComponentKind`
protobuf enum (spec section 6: `kind: enum{Component, Schematic}`), with
the protobuf values 0 and 1 in declaration order. -/
inductive ComponentKind where
  | component
  | schematic
  deriving DecidableEq

/-- Modelled from the spec: protobuf enum decoding of the kind field. -/
def ComponentKind.from_i32 (n : Int) : Option ComponentKind :=
  if n = 0 then some ComponentKind.component
  else if n = 1 then some ComponentKind.schematic
  else none

/-- Modelled from the spec: protobuf enum encoding of the kind field. -/
def ComponentKind.intoI32 : ComponentKind → Int
  | ComponentKind.component => 0
  | ComponentKind.schematic => 1

/-- The vino-rpc error type; only the `Other` variant is constructed by
the embedded code (src/crates/vino-rpc/src/lib.rs line 153). -/
inductive RpcError where
  | other (msg : String)
  deriving DecidableEq

/-- `From<PortSignature> for component::Port`
(src/crates/vino-rpc/src/lib.rs lines 223-230). -/
def PortSignature.intoRpcPort (v : PortSignature) : RpcPort :=
  ⟨v.name, v.type_string⟩

/-- `From<component::Port> for PortSignature`
(src/crates/vino-rpc/src/lib.rs lines 232-239). -/
def RpcPort.intoPortSignature (v : RpcPort) : PortSignature :=
  ⟨v.name, v.ty⟩

/-- `From<ComponentSignature> for vino::Component`
(src/crates/vino-rpc/src/lib.rs lines 190-200): kind Component, ports
converted, providers empty. -/
def ComponentSignature.intoRpcComponent (v : ComponentSignature) : RpcComponent :=
  RpcComponent.mk v.name ComponentKind.component.intoI32
    (v.inputs.map PortSignature.intoRpcPort)
    (v.outputs.map PortSignature.intoRpcPort)
    []

/-- `From<vino::Component> for ComponentSignature`
(src/crates/vino-rpc/src/lib.rs lines 180-188): the wire component's
providers are dropped. -/
def RpcComponent.intoComponentSignature (v : RpcComponent) : ComponentSignature :=
  ⟨v.name, v.inputs.map RpcPort.intoPortSignature, v.outputs.map RpcPort.intoPortSignature⟩

/-- `From<ProviderSignature> for vino::Provider`
(src/crates/vino-rpc/src/lib.rs lines 214-221). -/
def ProviderSignature.intoRpcProvider (v : ProviderSignature) : RpcProvider :=
  RpcProvider.mk v.name (v.components.map ComponentSignature.intoRpcComponent)

/-- `From<vino::Provider> for ProviderSignature`
(src/crates/vino-rpc/src/lib.rs lines 171-178). -/
def RpcProvider.intoProviderSignature (v : RpcProvider) : ProviderSignature :=
  ⟨v.name, v.components.map RpcComponent.intoComponentSignature⟩

/-- `From<SchematicSignature> for vino::Component`
(src/crates/vino-rpc/src/lib.rs lines 202-212): kind Schematic, ports and
providers converted. -/
def SchematicSignature.intoRpcComponent (v : SchematicSignature) : RpcComponent :=
  RpcComponent.mk v.name ComponentKind.schematic.intoI32
    (v.inputs.map PortSignature.intoRpcPort)
    (v.outputs.map PortSignature.intoRpcPort)
    (v.providers.map ProviderSignature.intoRpcProvider)

/-- `From<HostedType> for vino::Component`
(src/crates/vino-rpc/src/lib.rs lines 139-146). -/
def HostedType.intoRpcComponent : HostedType → RpcComponent
  | HostedType.component v => v.intoRpcComponent
  | HostedType.schematic v => v.intoRpcComponent

/-- `TryFrom<vino::Component> for HostedType`
(src/crates/vino-rpc/src/lib.rs lines 148-169): an unrecognized kind is
an error, kind Component rebuilds a ComponentSignature, kind Schematic a
SchematicSignature. -/
def HostedType.try_from (value : RpcComponent) : Except RpcError HostedType :=
  match ComponentKind.from_i32 value.kind with
  | none => Except.error (RpcError.other "Invalid component kind")
  | some ComponentKind.component =>
    Except.ok (HostedType.component
      ⟨value.name, value.inputs.map RpcPort.intoPortSignature,
        value.outputs.map RpcPort.intoPortSignature⟩)
  | some ComponentKind.schematic =>
    Except.ok (HostedType.schematic
      ⟨value.name, value.inputs.map RpcPort.intoPortSignature,
        value.outputs.map RpcPort.intoPortSignature,
        value.providers.map RpcProvider.intoProviderSignature⟩)

/-! ## Wasm module loading (vino-runtime wapc_module) -/

/-- Modelled from the spec: the external vino-wascap `Token` (spec
section 3 "Claims token", "Tokens are opaque externally"); kept opaque as
the bytes of its signed envelope. -/
structure Token where
  payload : List Nat
  deriving DecidableEq

/-- Modelled from the spec: vino-runtime's `ComponentError` enum is not
among the source files; the `ClaimsError` variant is the one the
embedded loader constructs, and the remaining variants are collapsed
into `other`. -/
inductive ComponentError where
  | ClaimsError (msg : String)
  | other (msg : String)
  deriving DecidableEq

/-- Modelled from the spec: `vino_wascap::extract_claims` is not among
the source files. Per spec section 4.E, loading "extracts a signed
claims token embedded in the module, verifies its signature against the
embedded issuer public key" and a custom section carries the token
(section 6). The byte format is abstracted: a leading 2 marks a
correctly signed claims section whose token is the remaining bytes, a
leading 1 a claims section that fails verification, and anything else a
module with no claims section. -/
def extract_claims (buf : List Nat) : Except String (Option Token) :=
  match buf with
  | 2 :: rest => Except.ok (some ⟨rest⟩)
  | 1 :: _ => Except.error "claims verification failed"
  | _ => Except.ok none

/-- Modelled from the spec: the error conversion applied by the `?`
operator on `extract_claims` in `from_slice`; per spec section 4.E
"Missing or invalid claims → ClaimsError". -/
def componentErrorOfWascap (e : String) : ComponentError :=
  ComponentError.ClaimsError e

/-- `WapcModule` (src/crates/vino-runtime/src/providers/wapc_module.rs
lines 16-23): the cached token, the raw module bytes, and the provider
service address (None until started, modelled as an Option Unit). -/
structure WapcModule where
  token : Token
  bytes : List Nat
  addr : Option Unit
  deriving DecidableEq

/-- `WapcModule::from_slice`
(src/crates/vino-runtime/src/providers/wapc_module.rs lines 28-42):
extract the claims token; a failed extraction propagates as an error, a
missing token yields `ClaimsError("Could not extract claims from
component")`, and a token yields the module caching it with the bytes. -/
def WapcModule.from_slice (buf : List Nat) : Except ComponentError WapcModule :=
  match extract_claims buf with
  | Except.error e => Except.error (componentErrorOfWascap e)
  | Except.ok none =>
    Except.error (ComponentError.ClaimsError "Could not extract claims from component")
  | Except.ok (some t) => Except.ok ⟨t, buf, none⟩

/-- Modelled from the spec: vino-runtime's `CommonError` enum is not
among the source files; `FileNotFound` is the variant the embedded
loader constructs on a `from_slice` failure, `io` stands for a file
open/read failure, and `component` embeds a `ComponentError` so that the
claim's "reporting the corresponding error" can be stated. -/
inductive CommonError where
  | FileNotFound (path : String)
  | io (msg : String)
  | component (e : ComponentError)
  deriving DecidableEq

/-- `WapcModule::from_file`
(src/crates/vino-runtime/src/providers/wapc_module.rs lines 45-51) over
an abstract file system `fs` mapping a path to the bytes read from it
(none when opening or reading fails): read the file, then
`from_slice(&buf).map_err(|_| CommonError::FileNotFound(path))`. -/
def WapcModule.from_file (fs : String → Option (List Nat)) (path : String) :
    Except CommonError WapcModule :=
  match fs path with
  | none => Except.error (CommonError.io "could not open or read file")
  | some buf =>
    match WapcModule.from_slice buf with
    | Except.ok m => Except.ok m
    | Except.error _ => Except.error (CommonError.FileNotFound path)

/-- The claim's reading of `from_file`, following the spec's words
("`from_file(path)` is `from_bytes` over the file contents" together
with the claim's "reporting the corresponding error"): read the file,
delegate to `from_slice`, and pass a `from_slice` failure through as the
corresponding component error. -/
def from_file_spec (fs : String → Option (List Nat)) (path : String) :
    Except CommonError WapcModule :=
  match fs path with
  | none => Except.error (CommonError.io "could not open or read file")
  | some buf =>
    match WapcModule.from_slice buf with
    | Except.ok m => Except.ok m
    | Except.error e => Except.error (CommonError.component e)

/-! ## Network builder (vino-runtime network.rs) -/

/-- Modelled from the spec: the external vino-wascap `KeyPair` (spec
section 4.H); the seed determines the pair and `public_key` is its
public half, abstracted as a tagged rendering of the seed. -/
structure KeyPair where
  seed : String
  deriving DecidableEq

/-- Modelled from the spec: the public half of a keypair. -/
def KeyPair.public_key (kp : KeyPair) : String :=
  "PUB" ++ kp.seed

/-- Modelled from the spec: `keypair_from_seed` of the external
vino-wascap crate, abstracted as total key derivation from the seed. -/
def keypair_from_seed (seed : String) : KeyPair :=
  ⟨seed⟩

/-- A `std::time::Duration`: whole seconds and a nanosecond part. -/
structure Duration where
  secs : Nat
  nanos : Nat
  deriving DecidableEq

/-- `Duration::from_secs`. -/
def Duration.from_secs (n : Nat) : Duration :=
  ⟨n, 0⟩

/-- Modelled from the spec: the manifest-loaded `NetworkDefinition` is
external (spec section 1, "Out of scope: ... the manifest loader");
kept opaque as its source name. -/
structure NetworkDefinition where
  source : String
  deriving DecidableEq

/-- `NetworkService::for_id`: the per-uid service actor address,
abstracted as the uid it is registered under. -/
def NetworkService.for_id (uid : String) : String :=
  uid

/-- `NetworkBuilder` (src/crates/vino-runtime/src/network.rs lines
99-110), the lattice handle abstracted as an Option Unit. -/
structure NetworkBuilder where
  allow_latest : Bool
  allowed_insecure : List String
  definition : NetworkDefinition
  kp : KeyPair
  uid : String
  lattice : Option Unit
  timeout : Duration
  deriving DecidableEq

/-- `Network` (src/crates/vino-runtime/src/network.rs lines 15-26), the
service address abstracted as the id it is looked up by. -/
structure Network where
  uid : String
  definition : NetworkDefinition
  addr : String
  allow_latest : Bool
  allowed_insecure : List String
  kp : KeyPair
  timeout : Duration
  lattice : Option Unit
  deriving DecidableEq

/-- `NetworkBuilder::from_definition`
(src/crates/vino-runtime/src/network.rs lines 114-130): keypair from the
seed, uid its public key, allow_latest false, no allowed insecure
registries, a 5 second timeout and no lattice. -/
def NetworkBuilder.from_definition (definition : NetworkDefinition) (seed : String) :
    NetworkBuilder :=
  let kp := keypair_from_seed seed
  let nuid := kp.public_key
  { definition := definition
    allow_latest := false
    allowed_insecure := []
    uid := nuid
    timeout := Duration.from_secs 5
    lattice := none
    kp := kp }

/-- The builder's `timeout` setter
(src/crates/vino-runtime/src/network.rs lines 132-134):
`Self { timeout, ..self }`. (Named `with_timeout` because the field
accessor already carries the source method's name.) -/
def NetworkBuilder.with_timeout (self : NetworkBuilder) (timeout : Duration) :
    NetworkBuilder :=
  { self with timeout := timeout }

/-- `NetworkBuilder::build`
(src/crates/vino-runtime/src/network.rs lines 155-168). -/
def NetworkBuilder.build (self : NetworkBuilder) : Network :=
  { addr := NetworkService.for_id self.uid
    definition := self.definition
    uid := self.uid
    allow_latest := self.allow_latest
    allowed_insecure := self.allowed_insecure
    kp := self.kp
    timeout := self.timeout
    lattice := self.lattice }

/-- `Network::new` (src/crates/vino-runtime/src/network.rs lines 29-31):
build the builder from the definition. -/
def Network.new (definition : NetworkDefinition) (seed : String) : Network :=
  (NetworkBuilder.from_definition definition seed).build

/-! ## In-memory collection provider (provider-collection-inmemory) -/

/-- Modelled from the spec: the external vino-provider `Entity` (spec
section 3 "Entity": Component, Schematic, Provider, Client). -/
inductive Entity where
  | component (name : String)
  | schematic (name : String)
  | provider (id : String)
  | client (tag : String)
  deriving DecidableEq

/-- Modelled from the spec: vino-provider's `ProviderError` is not among
the source files; spec section 4.C lists the failure modes
`ComponentNotFound`, `TypeMismatch` and an opaque `ProviderError`
passthrough (here `other`), plus the entity-conversion failure
`into_component` raises. -/
inductive ProviderError where
  | ComponentNotFound (name : String)
  | TypeMismatch (port : String) (expected : String) (actual : String)
  | conversionError (msg : String)
  | other (msg : String)
  deriving DecidableEq

/-- Modelled from the spec: `Entity::into_component`, which yields the
component name of a Component entity and fails on the others. -/
def Entity.into_component : Entity → Except ProviderError String
  | Entity.component name => Except.ok name
  | _ => Except.error (ProviderError.conversionError "entity is not a component")

/-- `State` (src/crates/provider-collection-inmemory/src/provider.rs
lines 19-23): the document map and the collection map, embedded as
association lists. -/
structure State where
  documents : List (String × String)
  collections : List (String × List String)
  deriving DecidableEq

/-- A decoded output value a provider component emits: a string or a
list of strings (the shapes of spec scenario S2's outputs). -/
inductive PacketValue where
  | str (s : String)
  | strList (l : List String)
  deriving DecidableEq

/-- One output of a provider component: the port and the value. -/
structure OutputPacket where
  port : String
  packet : PacketValue
  deriving DecidableEq

/-- A decoded invocation payload: the input port names and their string
values. -/
def ProviderPayload : Type :=
  List (String × String)

/-- The value bound to a port of a payload, if any. -/
def payloadGet (payload : List (String × String)) (port : String) : Option String :=
  (payload.find? (fun p => p.1 = port)).map Prod.snd

/-- Binding a key in an association list, replacing an earlier binding. -/
def assocSet (l : List (String × String)) (k v : String) : List (String × String) :=
  (k, v) :: l.filter (fun p => p.1 ≠ k)

/-- The document ids of a collection, in insertion order. -/
def collectionGet (l : List (String × List String)) (k : String) : List String :=
  ((l.find? (fun p => p.1 = k)).map Prod.snd).getD []

/-- Appending a document id to a collection. -/
def collectionPush (l : List (String × List String)) (k v : String) :
    List (String × List String) :=
  (k, collectionGet l k ++ [v]) :: l.filter (fun p => p.1 ≠ k)

/-- A provider component job: the guarded state and the decoded payload
in, the updated state and the output packets out. -/
def ProviderJob : Type :=
  State → List (String × String) → Except ProviderError (State × List OutputPacket)

/-- Modelled from the spec: the generated `add-item` job (spec scenario
S2): store the document under its id, append the id to the collection,
and output the document id. -/
def addItemJob : ProviderJob := fun s payload =>
  match payloadGet payload "document_id", payloadGet payload "collection_id",
      payloadGet payload "document" with
  | some did, some cid, some doc =>
    Except.ok
      ({ documents := assocSet s.documents did doc
         collections := collectionPush s.collections cid did },
        [⟨"document_id", PacketValue.str did⟩])
  | _, _, _ => Except.error (ProviderError.other "missing input")

/-- Modelled from the spec: the generated `get-item` job (spec scenario
S2): output the stored document. -/
def getItemJob : ProviderJob := fun s payload =>
  match payloadGet payload "document_id", payloadGet payload "collection_id" with
  | some did, some _ =>
    match payloadGet s.documents did with
    | some doc => Except.ok (s, [⟨"document", PacketValue.str doc⟩])
    | none => Except.error (ProviderError.other "document not found")
  | _, _ => Except.error (ProviderError.other "missing input")

/-- Modelled from the spec: the generated `list-items` job (spec
scenario S2): output the collection's document ids. -/
def listItemsJob : ProviderJob := fun s payload =>
  match payloadGet payload "collection_id" with
  | some cid =>
    Except.ok (s, [⟨"document_ids", PacketValue.strList (collectionGet s.collections cid)⟩])
  | none => Except.error (ProviderError.other "missing input")

/-- The components the in-memory collection provider exposes (spec
scenario S2). -/
def exposedComponents : List String :=
  ["add-item", "get-item", "list-items"]

/-- Modelled from the spec: `generated::get_component` of the in-memory
collection provider (the generated module is not among the source
files): the job for each exposed component name, none otherwise. -/
def get_component (name : String) : Option ProviderJob :=
  if name = "add-item" then some addItemJob
  else if name = "get-item" then some getItemJob
  else if name = "list-items" then some listItemsJob
  else none

/-- `RpcHandler::invoke` of the in-memory collection provider
(src/crates/provider-collection-inmemory/src/provider.rs lines 41-57):
convert the entity to a component name, look the component up, and run
its job against the shared state; an unknown component is
`ComponentNotFound` and leaves the state untouched. The mutex-guarded
shared state is threaded explicitly: the result pairs the state after
the call with the outcome. -/
def Provider.invoke (s : State) (entity : Entity) (payload : List (String × String)) :
    State × Except ProviderError (List OutputPacket) :=
  match entity.into_component with
  | Except.error e => (s, Except.error e)
  | Except.ok component =>
    match get_component component with
    | none => (s, Except.error (ProviderError.ComponentNotFound component))
    | some job =>
      match job s payload with
      | Except.ok (s2, outputs) => (s2, Except.ok outputs)
      | Except.error e => (s, Except.error e)

/-- `DurationStatistics` as used by the provider's `get_stats`
(src/crates/provider-collection-inmemory/src/provider.rs lines 72-88). -/
structure DurationStatistics where
  max_time : Nat
  min_time : Nat
  average : Nat
  deriving DecidableEq

/-- `Statistics` (src/crates/vino-rpc/src/lib.rs lines 112-116): the
call count and the duration histogram. -/
structure Statistics where
  num_calls : Nat
  execution_duration : DurationStatistics
  deriving DecidableEq

/-- `RpcHandler::get_stats` of the in-memory collection provider
(src/crates/provider-collection-inmemory/src/provider.rs lines 69-90),
marked "TODO Dummy implementation" in the source: it ignores the
provider's state entirely and reports a constant num_calls of 1 when an
id is supplied and 0 otherwise. -/
def Provider.get_stats (id : Option String) : List Statistics :=
  if id.isSome then [⟨1, ⟨0, 0, 0⟩⟩] else [⟨0, ⟨0, 0, 0⟩⟩]

/-- The true number of calls made to a component across a sequence of
invocations, each recorded by the component name it targeted. -/
def trueCallCount (log : List String) (component : String) : Nat :=
  (log.filter (fun c => c = component)).length

/-! ## Key-file lookup (wafl keys.rs) -/

/-- `nkeys::KeyPairType` (the key types spec section 4.H lists). -/
inductive KeyPairType where
  | Account
  | Cluster
  | Service
  | Module
  | Server
  | Operator
  | User
  deriving DecidableEq

/-- `keypair_type_to_string` (src/crates/bins/wafl/src/keys.rs lines
126-137). -/
def keypair_type_to_string : KeyPairType → String
  | KeyPairType.Account => "account"
  | KeyPairType.Cluster => "cluster"
  | KeyPairType.Service => "service"
  | KeyPairType.Module => "module"
  | KeyPairType.Server => "server"
  | KeyPairType.Operator => "operator"
  | KeyPairType.User => "user"

/-- `determine_directory` (src/crates/bins/wafl/src/keys.rs lines
65-82), non-windows branch: the supplied directory if given, otherwise
`$HOME/.wafl/keys`, otherwise an error. `homeEnv` is the value of the
HOME environment variable, if set. -/
def determine_directory (directory : Option String) (homeEnv : Option String) :
    Except String String :=
  match directory with
  | some d => Except.ok d
  | none =>
    match homeEnv with
    | some home => Except.ok (home ++ "/.wafl/keys")
    | none =>
      Except.error
        "HOME not found, please create HOME or set $WAFL_KEYS for autogenerated keys"

/-- The clap layer of the `--directory` flag
(src/crates/bins/wafl/src/keys.rs line 15, `env = "WAFL_KEYS"`): the
flag's value when given, otherwise the WAFL_KEYS environment variable. -/
def resolve_directory_flag (flag : Option String) (waflKeysEnv : Option String) :
    Option String :=
  match flag with
  | some f => some f
  | none => waflKeysEnv

/-- Splitting a character list on a separator character; the list of
(possibly empty) chunks between separators. -/
def splitOnChar (c : Char) : List Char → List (List Char)
  | [] => [[]]
  | a :: t =>
    let r := splitOnChar c t
    if a = c then [] :: r
    else
      match r with
      | [] => [[a]]
      | h :: t2 => (a :: h) :: t2

/-- `std::path::Path::file_stem` over a slash-separated path rendered as
a string: the final path component without its extension (the whole
final component when it has no dot or is a lone dot-file). -/
def file_stem (p : String) : String :=
  let base := (splitOnChar '/' p.data).getLastD p.data
  match splitOnChar '.' base with
  | [] => String.mk base
  | [_] => String.mk base
  | [[], _] => String.mk base
  | parts => String.mk (List.intercalate ['.'] parts.dropLast)

/-- The key file path `extract_keypair` reads
(src/crates/bins/wafl/src/keys.rs lines 86-123):
`<dir>/<module_name>_<type>.nk` where dir comes from
`determine_directory` and module_name is `$USER` (default "user") for
Account keys and the module path's file stem for every other type.
`userEnv` is the USER environment variable, if set. -/
def extract_key_path (module_path : String) (directory : Option String)
    (homeEnv userEnv : Option String) (keygen_type : KeyPairType) :
    Except String String :=
  match determine_directory directory homeEnv with
  | Except.error e => Except.error e
  | Except.ok dir =>
    let module_name :=
      match keygen_type with
      | KeyPairType.Account => userEnv.getD "user"
      | _ => file_stem module_path
    Except.ok (dir ++ "/" ++ module_name ++ "_" ++ keypair_type_to_string keygen_type ++ ".nk")

/-- The concrete file system used to exhibit C5's error masking: one
file `m.wasm` whose bytes carry a claims section that fails
verification. -/
def fs0 : String → Option (List Nat) :=
  fun p => if p = "m.wasm" then some [1] else none

/-! ## Helper lemmas -/

theorem port_roundtrip (p : PortSignature) :
    (p.intoRpcPort).intoPortSignature = p := by
  cases p
  rfl

theorem ports_roundtrip (l : List PortSignature) :
    l.map (RpcPort.intoPortSignature ∘ PortSignature.intoRpcPort) = l := by
  induction l with
  | nil => rfl
  | cons a t ih => simp [Function.comp, port_roundtrip, ih]

theorem comp_roundtrip (c : ComponentSignature) :
    (c.intoRpcComponent).intoComponentSignature = c := by
  cases c
  simp [ComponentSignature.intoRpcComponent, RpcComponent.intoComponentSignature,
    RpcComponent.name, RpcComponent.inputs, RpcComponent.outputs, ports_roundtrip]

theorem comps_roundtrip (l : List ComponentSignature) :
    l.map (RpcComponent.intoComponentSignature ∘ ComponentSignature.intoRpcComponent) = l := by
  induction l with
  | nil => rfl
  | cons a t ih => simp [Function.comp, comp_roundtrip, ih]

theorem provider_roundtrip (p : ProviderSignature) :
    (p.intoRpcProvider).intoProviderSignature = p := by
  cases p
  simp [ProviderSignature.intoRpcProvider, RpcProvider.intoProviderSignature,
    RpcProvider.name, RpcProvider.components, comps_roundtrip]

theorem providers_roundtrip (l : List ProviderSignature) :
    l.map (RpcProvider.intoProviderSignature ∘ ProviderSignature.intoRpcProvider) = l := by
  induction l with
  | nil => rfl
  | cons a t ih => simp [Function.comp, provider_roundtrip, ih]

/-! ## Claims -/

/-- C1: for every input string s the reverse component's job emits
exactly one data packet on port "output" carrying the character-wise
reversal of s, followed by Done on that port; in particular input
"hello" yields "olleh". -/
theorem reverse_component_reverses :
    (∀ s : String,
      reverseJob ⟨s⟩ =
        [⟨"output", PortPayload.data (String.mk s.data.reverse)⟩,
         ⟨"output", PortPayload.done⟩])
    ∧ reverseJob ⟨"hello"⟩ =
        [⟨"output", PortPayload.data "olleh"⟩, ⟨"output", PortPayload.done⟩] := by
  refine ⟨fun s => rfl, ?_⟩
  decide

/-- C3 counterexample: an Invalid-data frame decodes to the reserved
Invalid payload, which is not the packet Error("invalid"). -/
theorem invalid_frame_counterexample :
    OutputKind.intoPacket ⟨"output", some (OutputKindData.invalid true)⟩ =
      Packet.v0 Payload.invalid
    ∧ Packet.v0 Payload.invalid ≠ Packet.v0 (Payload.error "invalid") := by
  refine ⟨rfl, ?_⟩
  decide

/-- C3 amended: an Invalid-data frame decodes to the reserved Invalid
payload (the catch-all the spec says consumers treat as an error)
rather than to a literal Error("invalid") packet, and a Test-data frame
decodes to the same Invalid payload, which is not a data, error,
exception, or bracket/close signal packet. -/
theorem test_invalid_frame_decoding :
    (∀ (port : String) (b : Bool),
      OutputKind.intoPacket ⟨port, some (OutputKindData.invalid b)⟩ =
        Packet.v0 Payload.invalid)
    ∧ (∀ (port : String) (v : List Nat),
      OutputKind.intoPacket ⟨port, some (OutputKindData.test v)⟩ =
        Packet.v0 Payload.invalid)
    ∧ (∀ bytes, Packet.v0 Payload.invalid ≠ Packet.v0 (Payload.messagePack bytes))
    ∧ (∀ msg, Packet.v0 Payload.invalid ≠ Packet.v0 (Payload.error msg))
    ∧ (∀ msg, Packet.v0 Payload.invalid ≠ Packet.v0 (Payload.exception msg))
    ∧ Packet.v0 Payload.invalid ≠ Packet.v0 Payload.close
    ∧ Packet.v0 Payload.invalid ≠ Packet.v0 Payload.openBracket
    ∧ Packet.v0 Payload.invalid ≠ Packet.v0 Payload.closeBracket := by
  refine ⟨fun _ _ => rfl, fun _ _ => rfl, ?_, ?_, ?_, ?_, ?_, ?_⟩ <;> simp

/-- C7: the RPC wire decoder maps signal code 0 to a Close packet, 1 to
OpenBracket, 2 to CloseBracket, and any other signal code to an Error
packet ("Sent an invalid signal") rather than a valid signal. -/
theorem signal_code_decoding :
    ∀ (port : String) (n : Int),
      OutputKind.intoPacket ⟨port, some (OutputKindData.signal n)⟩ =
        if n = 0 then Packet.v0 Payload.close
        else if n = 1 then Packet.v0 Payload.openBracket
        else if n = 2 then Packet.v0 Payload.closeBracket
        else Packet.v0 (Payload.error "Sent an invalid signal") := by
  intro port n
  by_cases h0 : n = 0
  · subst h0; rfl
  by_cases h1 : n = 1
  · subst h1; rfl
  by_cases h2 : n = 2
  · subst h2; rfl
  simp [OutputKind.intoPacket, OutputSignal.from_i32, h0, h1, h2]

/-- C4: a builder created from a definition carries a 5 second timeout,
the network built from it does as well, and the builder's timeout
setter replaces the timeout while leaving every other builder field
unchanged. -/
theorem network_default_timeout :
    (∀ (d : NetworkDefinition) (seed : String),
      (NetworkBuilder.from_definition d seed).timeout = Duration.from_secs 5
      ∧ (Network.new d seed).timeout = Duration.from_secs 5)
    ∧ (∀ (b : NetworkBuilder) (t : Duration),
      (b.with_timeout t).timeout = t
      ∧ (b.with_timeout t).allow_latest = b.allow_latest
      ∧ (b.with_timeout t).allowed_insecure = b.allowed_insecure
      ∧ (b.with_timeout t).definition = b.definition
      ∧ (b.with_timeout t).kp = b.kp
      ∧ (b.with_timeout t).uid = b.uid
      ∧ (b.with_timeout t).lattice = b.lattice) :=
  ⟨fun _ _ => ⟨rfl, rfl⟩, fun _ _ => ⟨rfl, rfl, rfl, rfl, rfl, rfl, rfl⟩⟩

/-- C6: the provider's `get_stats` is the source's "TODO Dummy
implementation": with an id supplied it reports num_calls 1 and without
one num_calls 0, regardless of the calls actually made; after zero
invocations the true call count of "add-item" is 0 and after two it is
2, yet get_stats reports 1 either way. -/
theorem get_stats_dummy :
    Provider.get_stats (some "add-item") = [⟨1, ⟨0, 0, 0⟩⟩]
    ∧ Provider.get_stats none = [⟨0, ⟨0, 0, 0⟩⟩]
    ∧ trueCallCount [] "add-item" = 0
    ∧ trueCallCount ["add-item", "add-item"] "add-item" = 2
    ∧ (1 : Nat) ≠ 0 ∧ (1 : Nat) ≠ 2 := by
  refine ⟨rfl, rfl, rfl, ?_, ?_, ?_⟩ <;> decide

/-- C2: for every byte buffer from which no signed claims token can be
extracted — extraction fails or yields no token — `from_slice` returns a
ClaimsError and no module; for a buffer whose claims extraction yields a
token, it returns a module caching that token together with the raw
bytes. -/
theorem wapc_from_slice_claims :
    ∀ buf : List Nat,
      ((∀ t, extract_claims buf ≠ Except.ok (some t)) →
        ∃ msg, WapcModule.from_slice buf =
          Except.error (ComponentError.ClaimsError msg))
      ∧ (∀ t, extract_claims buf = Except.ok (some t) →
        WapcModule.from_slice buf = Except.ok ⟨t, buf, none⟩) := by
  intro buf
  constructor
  · intro h
    cases hx : extract_claims buf with
    | error e =>
      exact ⟨e, by simp [WapcModule.from_slice, hx, componentErrorOfWascap]⟩
    | ok o =>
      cases o with
      | none =>
        exact ⟨"Could not extract claims from component",
          by simp [WapcModule.from_slice, hx]⟩
      | some t => exact absurd hx (h t)
  · intro t ht
    simp [WapcModule.from_slice, ht]

/-- C5 counterexample: for the file system holding one file m.wasm whose
bytes fail claims verification, `from_slice` on the contents fails with
a claims error, yet `from_file` reports FileNotFound("m.wasm") instead
of the corresponding error, differing from the spec's reading of
from_file. -/
theorem from_file_error_masking :
    WapcModule.from_slice [1] =
      Except.error (ComponentError.ClaimsError "claims verification failed")
    ∧ WapcModule.from_file fs0 "m.wasm" =
      Except.error (CommonError.FileNotFound "m.wasm")
    ∧ from_file_spec fs0 "m.wasm" =
      Except.error (CommonError.component
        (ComponentError.ClaimsError "claims verification failed"))
    ∧ WapcModule.from_file fs0 "m.wasm" ≠ from_file_spec fs0 "m.wasm" := by
  have h1 : WapcModule.from_file fs0 "m.wasm" =
      Except.error (CommonError.FileNotFound "m.wasm") := rfl
  have h2 : from_file_spec fs0 "m.wasm" =
      Except.error (CommonError.component
        (ComponentError.ClaimsError "claims verification failed")) := rfl
  refine ⟨rfl, h1, h2, ?_⟩
  rw [h1, h2]
  simp

/-- C5 amended: `from_file` is `from_slice` over the file contents on
the success side — it succeeds with a module exactly when reading
succeeds and `from_slice` succeeds on the contents — and it fails
exactly when reading fails or `from_slice` fails; but a `from_slice`
failure is reported as FileNotFound(path), discarding the underlying
claims error rather than reporting the corresponding error. -/
theorem from_file_delegates :
    ∀ (fs : String → Option (List Nat)) (path : String),
      (∀ m, WapcModule.from_file fs path = Except.ok m ↔
        ∃ buf, fs path = some buf ∧ WapcModule.from_slice buf = Except.ok m)
      ∧ (∀ buf e, fs path = some buf → WapcModule.from_slice buf = Except.error e →
        WapcModule.from_file fs path =
          Except.error (CommonError.FileNotFound path))
      ∧ (fs path = none →
        ∃ msg, WapcModule.from_file fs path = Except.error (CommonError.io msg)) := by
  intro fs path
  cases hf : fs path with
  | none =>
    refine ⟨?_, ?_, ?_⟩
    · intro m
      constructor
      · intro h
        simp [WapcModule.from_file, hf] at h
      · rintro ⟨buf, hb, _⟩
        exact Option.noConfusion hb
    · intro buf e hb _
      exact Option.noConfusion hb
    · intro _
      exact ⟨"could not open or read file", by simp [WapcModule.from_file, hf]⟩
  | some buf =>
    refine ⟨?_, ?_, ?_⟩
    · intro m
      cases hs : WapcModule.from_slice buf with
      | ok m2 =>
        have hred : WapcModule.from_file fs path = Except.ok m2 := by
          simp [WapcModule.from_file, hf, hs]
        constructor
        · intro h
          have hm : m2 = m := Except.ok.inj (hred.symm.trans h)
          exact ⟨buf, rfl, by rw [hs, hm]⟩
        · rintro ⟨b, hb, hsb⟩
          obtain rfl : b = buf := (Option.some.inj hb).symm
          rw [hs] at hsb
          have hm : m2 = m := Except.ok.inj hsb
          rw [hred, hm]
      | error e =>
        have hred : WapcModule.from_file fs path =
            Except.error (CommonError.FileNotFound path) := by
          simp [WapcModule.from_file, hf, hs]
        constructor
        · intro h
          rw [hred] at h
          exact absurd h (by simp)
        · rintro ⟨b, hb, hsb⟩
          obtain rfl : b = buf := (Option.some.inj hb).symm
          rw [hs] at hsb
          exact absurd hsb (by simp)
    · intro b e hb hs2
      obtain rfl : b = buf := (Option.some.inj hb).symm
      simp [WapcModule.from_file, hf, hs2]
    · intro hnone
      exact Option.noConfusion hnone

/-- C8 counterexample: for an Account keypair the looked-up file name is
built from the USER environment variable, not from the subject; with
directory /keys and USER alice, both modfoo.wasm and otherbar.wasm
resolve to /keys/alice_account.nk, which is not the claimed
/keys/modfoo_account.nk. -/
theorem account_key_path_counterexample :
    extract_key_path "modfoo.wasm" (some "/keys") none (some "alice")
      KeyPairType.Account = Except.ok "/keys/alice_account.nk"
    ∧ extract_key_path "otherbar.wasm" (some "/keys") none (some "alice")
      KeyPairType.Account = Except.ok "/keys/alice_account.nk"
    ∧ ("/keys/alice_account.nk" : String) ≠ "/keys/modfoo_account.nk" := by
  refine ⟨rfl, rfl, by decide⟩

/-- C8 amended: for every key type other than Account the keypair is
looked up at `<dir>/<module file stem>_<type>.nk`; for Account the name
component is the USER environment variable (default "user") regardless
of the subject. `<dir>` is the supplied directory flag if given (the CLI
layer falls back to the WAFL_KEYS environment variable before the
directory is resolved), otherwise `$HOME/.wafl/keys`, otherwise an
error. -/
theorem key_path_resolution :
    (∀ (module_path : String) (dir home user : Option String) (t : KeyPairType),
      t ≠ KeyPairType.Account →
      extract_key_path module_path dir home user t =
        (determine_directory dir home).map
          (fun d => d ++ "/" ++ file_stem module_path ++ "_"
            ++ keypair_type_to_string t ++ ".nk"))
    ∧ (∀ (module_path : String) (dir home user : Option String),
      extract_key_path module_path dir home user KeyPairType.Account =
        (determine_directory dir home).map
          (fun d => d ++ "/" ++ user.getD "user" ++ "_"
            ++ keypair_type_to_string KeyPairType.Account ++ ".nk"))
    ∧ (∀ (d : String) (home : Option String),
      determine_directory (some d) home = Except.ok d)
    ∧ (∀ home : String,
      determine_directory none (some home) = Except.ok (home ++ "/.wafl/keys"))
    ∧ (∃ msg, determine_directory none none = Except.error msg)
    ∧ (∀ (f : String) (w : Option String), resolve_directory_flag (some f) w = some f)
    ∧ (∀ w : Option String, resolve_directory_flag none w = w) := by
  refine ⟨?_, ?_, fun _ _ => rfl, fun _ => rfl, ⟨_, rfl⟩, fun _ _ => rfl, fun _ => rfl⟩
  · intro module_path dir home user t ht
    unfold extract_key_path
    cases hd : determine_directory dir home with
    | error e => rfl
    | ok d =>
      cases t with
      | Account => exact absurd rfl ht
      | Cluster => rfl
      | Service => rfl
      | Module => rfl
      | Server => rfl
      | Operator => rfl
      | User => rfl
  · intro module_path dir home user
    unfold extract_key_path
    cases hd : determine_directory dir home with
    | error e => rfl
    | ok d => rfl

/-- C9: invoking the in-memory collection provider with a component
entity naming a component it does not expose returns a ComponentNotFound
error and leaves the provider's documents and collections maps
unchanged. -/
theorem inmemory_unknown_component (s : State)
    (payload : List (String × String)) (name : String)
    (h : name ∉ exposedComponents) :
    Provider.invoke s (Entity.component name) payload =
      (s, Except.error (ProviderError.ComponentNotFound name)) := by
  have hc : get_component name = none := by
    unfold exposedComponents at h
    simp only [List.mem_cons, List.not_mem_nil, or_false, not_or] at h
    unfold get_component
    simp [h.1, h.2.1, h.2.2]
  simp [Provider.invoke, Entity.into_component, hc]

/-- C9 witness: on a state holding one document, invoking the unknown
component "bogus" yields ComponentNotFound("bogus") and the same state. -/
theorem inmemory_unknown_component_witness :
    Provider.invoke ⟨[("d1", "x")], [("c", ["d1"])]⟩ (Entity.component "bogus") [] =
      (⟨[("d1", "x")], [("c", ["d1"])]⟩,
        Except.error (ProviderError.ComponentNotFound "bogus")) :=
  inmemory_unknown_component _ _ _ (by decide)

/-- C10: converting a HostedType to the wire Component and back is the
identity; a component's wire providers list is empty; a schematic's wire
providers convert back to exactly its providers; and `try_from` fails
exactly on a wire component whose kind field is not a valid
ComponentKind. -/
theorem hosted_type_roundtrip :
    (∀ h : HostedType, HostedType.try_from h.intoRpcComponent = Except.ok h)
    ∧ (∀ sig : ComponentSignature,
      (HostedType.component sig).intoRpcComponent.providers = [])
    ∧ (∀ sig : SchematicSignature,
      ((HostedType.schematic sig).intoRpcComponent.providers).map
        RpcProvider.intoProviderSignature = sig.providers)
    ∧ (∀ c : RpcComponent,
      (∃ e, HostedType.try_from c = Except.error e) ↔
        ComponentKind.from_i32 c.kind = none) := by
  refine ⟨?_, fun _ => rfl, ?_, ?_⟩
  · intro h
    cases h with
    | component sig =>
      cases sig
      simp [HostedType.intoRpcComponent, ComponentSignature.intoRpcComponent,
        ComponentKind.intoI32, HostedType.try_from, ComponentKind.from_i32,
        RpcComponent.kind, RpcComponent.name, RpcComponent.inputs,
        RpcComponent.outputs, ports_roundtrip]
    | schematic sig =>
      cases sig
      simp [HostedType.intoRpcComponent, SchematicSignature.intoRpcComponent,
        ComponentKind.intoI32, HostedType.try_from, ComponentKind.from_i32,
        RpcComponent.kind, RpcComponent.name, RpcComponent.inputs,
        RpcComponent.outputs, RpcComponent.providers, ports_roundtrip,
        providers_roundtrip]
  · intro sig
    cases sig
    simp [HostedType.intoRpcComponent, SchematicSignature.intoRpcComponent,
      RpcComponent.providers, providers_roundtrip]
  · intro c
    constructor
    · rintro ⟨e, he⟩
      unfold HostedType.try_from at he
      cases hk : ComponentKind.from_i32 c.kind with
      | none => rfl
      | some k =>
        rw [hk] at he
        cases k <;> exact absurd he (by simp)
    · intro hk
      refine ⟨RpcError.other "Invalid component kind", ?_⟩
      unfold HostedType.try_from
      rw [hk]

end Vino
